import Mathlib

/-!
Verification development for the Facebook page-creation automation engine
(`backend/automation/selenium_driver.py` and `backend/automation/tasks.py`).

Text rendered by the browser is modelled as `List Char`; the driver and the
page it renders are modelled by explicit environment values (which elements
are present/visible, what the current URL is, whether a Selenium call raised),
and each method of `FacebookPageGenerator` is translated into a pure function
of that environment, threading the mutable `metrics` dictionary and flags as
explicit state.  Exception-raising Selenium calls are modelled by environment
constructors naming the exception outcome, matching each `try`/`except`
of the source.
-/

/-- Characters of a string literal, the representation used for all text in
this development. -/
def strL (s : String) : List Char := s.data

/-- ASCII lower-casing of one character, mirroring what Python's `str.lower`
does on the ASCII range (the only range the fixed vocabulary uses). -/
def lowerChar (c : Char) : Char :=
  if c.isUpper then Char.ofNat (c.toNat + 32) else c

/-- Python's `pat in text` substring test, executable. -/
def containsSub (pat : List Char) : List Char → Bool
  | [] => pat.isEmpty
  | c :: rest => pat.isPrefixOf (c :: rest) || containsSub pat rest

/-! ## LoginStateDetector: `check_if_logged_in` (selenium_driver.py 167-209)

The method probes three "login form" selectors; a found-and-displayed one
forces `False`.  Otherwise three "logged in" selectors are probed; a
found-and-displayed one yields `True`.  Otherwise `False`. -/

/-- Outcome of `find_element` + `is_displayed` for one selector: the element
is absent (`NoSuchElementException`), present but hidden, or visible. -/
inductive ElemProbe
  | absent
  | hidden
  | visible
deriving DecidableEq

/-- Rendered-page state seen by `check_if_logged_in`: one probe outcome per
selector, in the order the source lists them. -/
structure LoginPageState where
  emailById : ElemProbe
  emailByName : ElemProbe
  loginButton : ElemProbe
  profileLabel : ElemProbe
  accountLabel : ElemProbe
  meLink : ElemProbe
deriving DecidableEq

/-- Whether a probed element was found and `is_displayed()`. -/
def probeVisible : ElemProbe → Bool
  | .visible => true
  | _ => false

/-- The source's `for selector in indicators: ... if elem.is_displayed(): return`
loop over a selector list: true iff some probe is visible. -/
def anyVisible (ps : List ElemProbe) : Bool := ps.any probeVisible

/-- `check_if_logged_in` (lines 167-209): login-form indicators first
(visible one ⇒ `False`), then logged-in indicators (visible one ⇒ `True`),
else `False`. -/
def check_if_logged_in (st : LoginPageState) : Bool :=
  if anyVisible [st.emailById, st.emailByName, st.loginButton] then false
  else if anyVisible [st.profileLabel, st.accountLabel, st.meLink] then true
  else false

/-- A visible credential-entry control (email field or login button). -/
def credentialControlVisible (st : LoginPageState) : Bool :=
  anyVisible [st.emailById, st.emailByName, st.loginButton]

/-- A visible identity-affordance element (profile icon, account menu, /me/ link). -/
def identityAffordanceVisible (st : LoginPageState) : Bool :=
  anyVisible [st.profileLabel, st.accountLabel, st.meLink]

/-! ## HostileResponseDetector: `detect_rate_limit` (selenium_driver.py 211-239) -/

/-- The fixed vocabulary of rate-limit/blocking phrases, exactly as listed at
lines 217-230 of the source (all already lower-case there). -/
def rate_limit_phrases : List (List Char) :=
  [strL "try again later",
   strL "you\x27re temporarily blocked",
   strL "temporarily blocked",
   strL "rate limit",
   strL "too many",
   strL "slow down",
   strL "something went wrong",
   strL "couldn\x27t create",
   strL "can\x27t create",
   strL "please try again",
   strL "action blocked",
   strL "we limit how often"]

/-- Orchestrator state touched by `detect_rate_limit`: the sticky
`self.rate_limited` flag and the `metrics['rate_limit_hits']` counter. -/
structure RateLimitState where
  rate_limited : Bool
  rate_limit_hits : Nat
deriving DecidableEq

/-- `detect_rate_limit` (lines 211-239): lower-case the body text, scan the
fixed phrase list with Python's `in`; on the first hit set the sticky flag,
bump the counter and report `true`; otherwise report `false` and leave the
state untouched.  The function is total: it always returns to its caller
(the source converts its own exceptions to `False`). -/
def detect_rate_limit (bodyText : List Char) (st : RateLimitState) :
    Bool × RateLimitState :=
  let lowText := bodyText.map lowerChar
  if rate_limit_phrases.any (fun p => containsSub p lowText) then
    (true, { rate_limited := true, rate_limit_hits := st.rate_limit_hits + 1 })
  else
    (false, st)

/-! ## URL identifier extraction (selenium_driver.py 1029-1060)

Python regex searches of the literal-plus-digits patterns
(`profile\.php\?id=(\d+)`, `id=(\d+)`, `facebook\.com/(\d+)`) are modelled
by `searchPatDigits`: the leftmost position where the literal occurs followed
by at least one digit wins, and the capture is the maximal digit run there —
exactly `re.search`'s leftmost-match, greedy `\d+` semantics for these
patterns. -/

/-- Match of `pat(\d+)` anchored at the start of `text`: the maximal digit
run following the literal, or `none` when the literal is absent here or no
digit follows. -/
def digitRunAfter (pat text : List Char) : Option (List Char) :=
  if pat.isPrefixOf text then
    let ds := (text.drop pat.length).takeWhile Char.isDigit
    if ds.isEmpty then none else some ds
  else none

/-- `re.search` of `pat(\d+)` over `text`: first position (left to right)
where `digitRunAfter` succeeds. -/
def searchPatDigits (pat : List Char) : List Char → Option (List Char)
  | [] => digitRunAfter pat []
  | c :: rest =>
    match digitRunAfter pat (c :: rest) with
    | some ds => some ds
    | none => searchPatDigits pat rest

/-- Python's `str.split(sep)` for a one-character separator (always a
non-empty list of parts). -/
def splitOnChar (sep : Char) : List Char → List (List Char)
  | [] => [[]]
  | x :: xs =>
    let r := splitOnChar sep xs
    if x == sep then [] :: r
    else
      match r with
      | [] => [[x]]
      | h :: t => (x :: h) :: t

/-- The fallback branch at lines 1056-1060:
`current_url.rstrip('/').split('/')[-1].split('?')[0]`. -/
def trailingSegment (url : List Char) : List Char :=
  let stripped := (url.reverse.dropWhile (· == '/')).reverse
  ((splitOnChar '/' stripped).getLastD []).takeWhile (· != '?')

/-- STEP 10 of `_create_real_facebook_page` (lines 1029-1060): the branch
gates test substring presence (`in`) or regex truthiness, and the taken
branch's regex capture (empty when the regex fails) is the page id. -/
def extract_page_id (url : List Char) : List Char :=
  if containsSub (strL "profile.php?id=") url then
    (searchPatDigits (strL "profile.php?id=") url).getD []
  else if containsSub (strL "id=") url then
    (searchPatDigits (strL "id=") url).getD []
  else if (searchPatDigits (strL "facebook.com/") url).isSome then
    (searchPatDigits (strL "facebook.com/") url).getD []
  else
    trailingSegment url

/-- A url-pattern rule as the spec describes them: a gate deciding whether
the rule is the one that fires, and the identifier it then extracts. -/
structure UrlRule where
  gate : List Char → Bool
  extract : List Char → List Char

/-- First rule whose gate holds determines the identifier. -/
def applyRules : List UrlRule → List Char → List Char
  | [], _ => []
  | r :: rs, url => if r.gate url then r.extract url else applyRules rs url

/-- The source's four branches of STEP 10 presented as prioritized rules:
gating is on substring presence (not on the numeric capture succeeding),
and a gated branch whose capture fails yields the empty identifier. -/
def pageIdRules : List UrlRule :=
  [⟨fun u => containsSub (strL "profile.php?id=") u,
    fun u => (searchPatDigits (strL "profile.php?id=") u).getD []⟩,
   ⟨fun u => containsSub (strL "id=") u,
    fun u => (searchPatDigits (strL "id=") u).getD []⟩,
   ⟨fun u => (searchPatDigits (strL "facebook.com/") u).isSome,
    fun u => (searchPatDigits (strL "facebook.com/") u).getD []⟩,
   ⟨fun _ => true, trailingSegment⟩]

/-! ## Selector resolution for the page-name input (selenium_driver.py 739-789)

For each selector in declared order, `find_elements` either raises (the
strategy is skipped) or returns a list of elements, of which the first that
is displayed and enabled wins; the first strategy producing such an element
determines the result.  On exhaustion the method returns a failed
`PageResult` with the fixed error string. -/

/-- A concrete DOM element as the loop sees it. -/
structure DomElement where
  displayed : Bool
  enabled : Bool
  elemId : Nat
deriving DecidableEq

/-- Outcome of `find_elements` for one strategy: an exception (strategy
skipped by `except Exception: continue`) or a list of candidates. -/
inductive FindOutcome
  | err
  | found (es : List DomElement)

/-- The inner `for elem in elements` loop: first displayed-and-enabled
candidate. -/
def firstInteractable : List DomElement → Option DomElement
  | [] => none
  | e :: es => if e.displayed && e.enabled then some e else firstInteractable es

/-- What one strategy contributes: `none` when it errors or none of its
candidates is displayed and enabled. -/
def strategyMatch {α : Type} (find : α → FindOutcome) (s : α) : Option DomElement :=
  match find s with
  | .err => none
  | .found es => firstInteractable es

/-- The outer `for selector_type, selector_value in page_name_selectors`
loop: first strategy with a match wins. -/
def resolveFirst {α : Type} (find : α → FindOutcome) : List α → Option DomElement
  | [] => none
  | s :: rest =>
    match strategyMatch find s with
    | some e => some e
    | none => resolveFirst find rest

/-- The page-name lookup step: the resolved element, or the failed result
the source returns at lines 784-789 (its error is the fixed string; the
strategy list itself is not part of the failure value). -/
def pageNameResolution {α : Type} (find : α → FindOutcome) (strategies : List α) :
    DomElement ⊕ List Char :=
  match resolveFirst find strategies with
  | some e => Sum.inl e
  | none => Sum.inr (strL "Could not find page name input field")

/-! ## Results and metrics (selenium_driver.py 30-49, 75-80, 1919-1933) -/

/-- The `PageResult` dataclass (lines 30-38); omitted constructor arguments
default to `""`/`0.0` as in the source. -/
structure PageResult where
  success : Bool
  page_name : List Char
  page_id : List Char
  page_url : List Char
  duration : Rat
  error : List Char
deriving DecidableEq

/-- The `InviteResult` dataclass (lines 41-49). -/
structure InviteResult where
  success : Bool
  page_id : List Char
  invitee_email : List Char
  invite_link : List Char
  role : List Char
  error : List Char
deriving DecidableEq

/-- The `self.metrics` dictionary initialised at lines 75-80.  Wall-clock
floats are modelled as rationals. -/
structure Metrics where
  pages_created : Nat
  total_time : Rat
  errors : Nat
  rate_limit_hits : Nat
deriving DecidableEq

/-- The dictionary `get_metrics` returns (lines 1919-1933): the four raw
counters spread with `**self.metrics` plus the two derived fields. -/
structure MetricsSnapshot where
  pages_created : Nat
  total_time : Rat
  errors : Nat
  rate_limit_hits : Nat
  avg_time_per_page : Rat
  success_rate : Rat
deriving DecidableEq

/-- `get_metrics` (lines 1919-1933), as a pure function returning the
snapshot together with the (untouched) metrics state. -/
def get_metrics (m : Metrics) : MetricsSnapshot × Metrics :=
  (⟨m.pages_created, m.total_time, m.errors, m.rate_limit_hits,
    if 0 < m.pages_created then m.total_time / (m.pages_created : Rat) else 0,
    if 0 < m.pages_created + m.errors then
      ((m.pages_created : Rat) / ((m.pages_created + m.errors : Nat) : Rat)) * 100
    else 0⟩,
   m)

/-! ## Page creation (selenium_driver.py 549-1118)

`create_facebook_page` dispatches on the driver precondition and
`test_mode`.  The real path `_create_real_facebook_page` is modelled up to
the point its outcome is decided: whether the page-name input resolved,
whether the Create control was clicked, and what the first confirmation
poll observes.  Line 1014 reads the name `creation_urls`, which is defined
nowhere in the module, so a poll iteration that finds neither the dashboard
indicator nor a page-id URL raises `NameError` before it can sleep and
retry; the generic handler at line 1106 converts that into a failed result
whose error is `str(e)`, and the loop therefore runs at most one
iteration. -/

/-- Environment of one test-mode creation attempt (`_create_test_page`,
lines 570-623): either some Selenium call raised (message `msg`), or the
httpbin form round-trip succeeded and `uuid.uuid4().hex[:12]` was
`uuidHex`; `dur` is the attempt's wall-clock duration. -/
inductive TestEnv
  | raises (msg : List Char) (dur : Rat)
  | runs (uuidHex : List Char) (dur : Rat)

/-- Observable outcome of the non-exception path of
`_create_real_facebook_page`: whether the page-name input resolved
(lines 761-789), whether the Create control was clicked (lines 885-917),
what the single confirmation poll sees (lines 981-1024) and the URL at
extraction time. -/
structure RealRunEnv where
  nameInputFound : Bool
  createClicked : Bool
  dashboardVisible : Bool
  finalUrl : List Char
  dur : Rat

/-- Environment of one real-mode creation attempt: a `TimeoutException`
(line 1095), some other Selenium exception raised before the confirmation
poll (line 1106), or the run outcome. -/
inductive RealEnv
  | raisesTimeout (dur : Rat)
  | raisesOther (msg : List Char) (dur : Rat)
  | runs (e : RealRunEnv)

/-- The confirmation checks of one poll iteration (lines 986-1011): the
Professional-dashboard indicator, or a URL containing `profile.php?id=` or
matching `facebook\.com/\d+`. -/
def confirmObserved (dashboardVisible : Bool) (url : List Char) : Bool :=
  dashboardVisible
    || containsSub (strL "profile.php?id=") url
    || (searchPatDigits (strL "facebook.com/") url).isSome

/-- The message Python gives `NameError: name 'creation_urls' is not
defined`, as `str(e)` stores it into the result at line 1117. -/
def creationUrlsNameError : List Char := strL "name \x27creation_urls\x27 is not defined"

/-- `_create_real_facebook_page` (lines 625-1118). -/
def create_real_facebook_page (logged_in : Bool) (page_name : List Char)
    (env : RealEnv) (m : Metrics) : PageResult × Metrics :=
  if !logged_in then
    (⟨false, page_name, [], [], 0, strL "Not logged in to Facebook"⟩, m)
  else
    match env with
    | .raisesTimeout dur =>
      (⟨false, page_name, [], [], dur, strL "Timeout waiting for page elements"⟩,
       { m with errors := m.errors + 1 })
    | .raisesOther msg dur =>
      (⟨false, page_name, [], [], dur, msg⟩, { m with errors := m.errors + 1 })
    | .runs e =>
      if !e.nameInputFound then
        (⟨false, page_name, [], [], e.dur, strL "Could not find page name input field"⟩, m)
      else if confirmObserved e.dashboardVisible e.finalUrl then
        if e.createClicked then
          (⟨true, page_name, extract_page_id e.finalUrl, e.finalUrl, e.dur, []⟩,
           { m with pages_created := m.pages_created + 1,
                    total_time := m.total_time + e.dur })
        else
          (⟨false, page_name, [], [], e.dur, strL "Could not click Create Page button"⟩,
           { m with errors := m.errors + 1 })
      else
        (⟨false, page_name, [], [], e.dur, creationUrlsNameError⟩,
         { m with errors := m.errors + 1 })

/-- `_create_test_page` (lines 570-623). -/
def create_test_page (page_name : List Char) (env : TestEnv) (m : Metrics) :
    PageResult × Metrics :=
  match env with
  | .raises msg dur =>
    (⟨false, page_name, [], [], dur, msg⟩, { m with errors := m.errors + 1 })
  | .runs uuidHex dur =>
    (⟨true, page_name, strL "test_" ++ uuidHex,
      strL "https://facebook.com/test_" ++ uuidHex, dur, []⟩,
     { m with pages_created := m.pages_created + 1,
              total_time := m.total_time + dur })

/-- Per-attempt environment for `create_facebook_page`: whichever of the two
paths runs consumes its half. -/
structure CreateEnv where
  testEnv : TestEnv
  realEnv : RealEnv

/-- `create_facebook_page` (lines 549-568): driver precondition, then
dispatch on `test_mode`. -/
def create_facebook_page (driverPresent test_mode logged_in : Bool)
    (page_name : List Char) (env : CreateEnv) (m : Metrics) :
    PageResult × Metrics :=
  if !driverPresent then
    (⟨false, page_name, [], [], 0, strL "Driver not initialized"⟩, m)
  else if test_mode then
    create_test_page page_name env.testEnv m
  else
    create_real_facebook_page logged_in page_name env.realEnv m

/-! ## SessionStore: `load_cookies` (selenium_driver.py 134-165)

For each cookie of the parsed file the source deletes `sameSite`, then
coerces `cookie['expiry'] = int(cookie['expiry'])` OUTSIDE the per-cookie
`try`; only `driver.add_cookie` sits inside it.  A `ValueError` from the
coercion therefore escapes to the method-level handler (line 163), which
returns `False`; cookies already added stay added, later ones are never
attempted. -/

/-- The value stored under `'expiry'`: convertible by Python's `int()`
(ints, floats, digit strings) or not (e.g. a non-numeric string). -/
inductive ExpiryVal
  | convertible (n : Int)
  | nonConvertible
deriving DecidableEq

/-- A cookie record of the session file, with only the fields the loader
touches; `cid` stands for the remaining payload. -/
structure Cookie where
  cid : Nat
  hasSameSite : Bool
  expiry : Option ExpiryVal
deriving DecidableEq

/-- A cookie after the sanitisation steps (no `sameSite`, integer expiry). -/
structure SanitizedCookie where
  cid : Nat
  expiry : Option Int
deriving DecidableEq

/-- Lines 150-154 for one cookie: drop `sameSite`, coerce `expiry`.
Returns `none` when `int(cookie['expiry'])` raises. -/
def sanitizeCookie (c : Cookie) : Option SanitizedCookie :=
  match c.expiry with
  | none => some ⟨c.cid, none⟩
  | some (.convertible n) => some ⟨c.cid, some n⟩
  | some .nonConvertible => none

/-- The state of the session file `load_cookies` reads. -/
inductive CookieFile
  | absent
  | unparsable
  | parsed (cs : List Cookie)

/-- The `for cookie in cookies` loop (lines 149-158), accumulating the
cookies actually added (`addOk` models `driver.add_cookie` succeeding; its
failures are skipped by the inner `except`).  A non-convertible expiry
aborts the loop with `False` via the method-level handler. -/
def loadCookiesLoop (addOk : SanitizedCookie → Bool) :
    List Cookie → List SanitizedCookie → Bool × List SanitizedCookie
  | [], acc => (true, acc.reverse)
  | c :: rest, acc =>
    match sanitizeCookie c with
    | none => (false, acc.reverse)
    | some sc => loadCookiesLoop addOk rest (if addOk sc then sc :: acc else acc)

/-- `load_cookies` (lines 134-165): `False` for a missing file, `False`
when `json.load` fails, otherwise the cookie loop.  The second component is
the set of cookies restored into the browser. -/
def load_cookies (file : CookieFile) (addOk : SanitizedCookie → Bool) :
    Bool × List SanitizedCookie :=
  match file with
  | .absent => (false, [])
  | .unparsable => (false, [])
  | .parsed cs => loadCookiesLoop addOk cs []

/-! ## Sharing: `_real_share_to_profile` (selenium_driver.py 1320-1917)

Every UI stage of this method is best-effort: a miss prints a warning and
falls through.  After the Give-Access stage the method returns
`success=True` in BOTH branches of `if submit_clicked:` (lines 1876-1896);
only the logged-in precondition (lines 1338-1344) and the exception
handlers (lines 1898-1917) produce `success=False`. -/

/-- Which of the best-effort UI stages managed to act, in source order. -/
structure ShareSteps where
  switchClicked : Bool
  usePageClicked : Bool
  dashboardClicked : Bool
  pageAccessClicked : Bool
  addClicked : Bool
  nextClicked : Bool
  personInputFound : Bool
  resultClicked : Bool
  submitClicked : Bool
  passwordEntered : Bool
  confirmClicked : Bool

/-- Environment of one share attempt: a `TimeoutException`, some other
exception (message `msg`), or the stage outcomes of an exception-free run. -/
inductive ShareEnv
  | raisesTimeout
  | raisesOther (msg : List Char)
  | runs (steps : ShareSteps)

/-- `_real_share_to_profile` (lines 1320-1917). -/
def real_share_to_profile (logged_in : Bool)
    (page_id profile_url role : List Char) (env : ShareEnv) : InviteResult :=
  if !logged_in then
    ⟨false, page_id, profile_url, [], strL "editor", strL "Not logged in to Facebook"⟩
  else
    match env with
    | .raisesTimeout =>
      ⟨false, page_id, profile_url, [], strL "editor",
       strL "Timeout waiting for page elements"⟩
    | .raisesOther msg =>
      ⟨false, page_id, profile_url, [], strL "editor", msg⟩
    | .runs steps =>
      if steps.submitClicked then
        ⟨true, page_id, profile_url, strL "https://facebook.com/" ++ page_id, role, []⟩
      else
        ⟨true, page_id, profile_url, strL "https://facebook.com/" ++ page_id, role, []⟩

/-! ## Batch driver: `create_pages_task` (tasks.py 24-149) -/

/-- The `results` counters the task accumulates (lines 58-64). -/
structure BatchResults where
  success : Nat
  failed : Nat
  processed : Nat
deriving DecidableEq

/-- One iteration of the attempt loop (lines 102-118): bump `success` or
`failed`, always bump `processed`. -/
def recordAttempt (r : BatchResults) (ok : Bool) : BatchResults :=
  if ok then
    { r with success := r.success + 1, processed := r.processed + 1 }
  else
    { r with failed := r.failed + 1, processed := r.processed + 1 }

/-- The attempt loop over the per-attempt success booleans of the attempts
actually run (cancellation just cuts the list short). -/
def runBatchLoop (outcomes : List Bool) : BatchResults :=
  outcomes.foldl recordAttempt ⟨0, 0, 0⟩

/-- Lines 142-144: `'completed' if failed == 0 else 'completed'`, overridden
to `'failed'` when no attempt succeeded and at least one failed. -/
def finalBatchStatus (r : BatchResults) : List Char :=
  let base := if r.failed == 0 then strL "completed" else strL "completed"
  if r.success == 0 && decide (0 < r.failed) then strL "failed" else base

/-! ## Concrete fixtures used by witnesses and counterexamples -/

/-- A lookup under which no strategy yields any element. -/
def findNothing : Nat → FindOutcome := fun _ => FindOutcome.found []

/-- A lookup where strategy `0` yields only a hidden element and every other
strategy yields a displayed, enabled element. -/
def findDemo : Nat → FindOutcome := fun n =>
  if n == 0 then FindOutcome.found [⟨false, true, 5⟩]
  else FindOutcome.found [⟨true, true, 7⟩]

/-- A cookie whose `expiry` Python's `int()` rejects. -/
def badExpiryCookie : Cookie := ⟨0, false, some ExpiryVal.nonConvertible⟩

/-- A well-formed cookie with an integer-convertible expiry. -/
def goodCookie : Cookie := ⟨1, false, some (ExpiryVal.convertible 123)⟩

/-! # Theorems -/

theorem containsSub_iff_infix (pat text : List Char) :
    containsSub pat text = true ↔ pat <:+: text := by
  induction text with
  | nil =>
    simp [containsSub, List.isEmpty_iff, List.infix_nil]
  | cons c rest ih =>
    simp only [containsSub, Bool.or_eq_true, List.isPrefixOf_iff_prefix, ih,
      List.infix_cons_iff]

theorem infix_map_iff {α β : Type} (f : α → β) (p : List β) (L : List α) :
    p <:+: L.map f ↔ ∃ v, v <:+: L ∧ v.map f = p := by
  constructor
  · rintro ⟨s, t, h⟩
    obtain ⟨l₁, l₂, rfl, h₁, rfl⟩ := List.map_eq_append_iff.mp h.symm
    obtain ⟨l₃, l₄, rfl, rfl, rfl⟩ := List.map_eq_append_iff.mp h₁
    exact ⟨l₄, ⟨l₃, l₂, by simp⟩, rfl⟩
  · rintro ⟨v, hv, rfl⟩
    exact hv.map f

theorem any_phrase_iff (bodyText : List Char) :
    (rate_limit_phrases.any (fun p => containsSub p (bodyText.map lowerChar)) = true)
      ↔ ∃ p ∈ rate_limit_phrases, ∃ v, v <:+: bodyText ∧ v.map lowerChar = p := by
  simp only [List.any_eq_true, containsSub_iff_infix]
  constructor
  · rintro ⟨p, hp, hinf⟩
    obtain ⟨v, hv, rfl⟩ := (infix_map_iff lowerChar p bodyText).mp hinf
    exact ⟨_, hp, v, hv, rfl⟩
  · rintro ⟨p, hp, v, hv, rfl⟩
    exact ⟨_, hp, (infix_map_iff lowerChar _ bodyText).mpr ⟨v, hv, rfl⟩⟩

/-- Claim C3: `check_if_logged_in` returns `false` whenever a credential-entry
control is visible (whatever the identity indicators show); with no visible
credential control it returns `true` exactly when an identity-affordance
element is visible; with neither it returns `false`. -/
theorem check_if_logged_in_spec (st : LoginPageState) :
    (credentialControlVisible st = true → check_if_logged_in st = false)
    ∧ (credentialControlVisible st = false →
        (check_if_logged_in st = true ↔ identityAffordanceVisible st = true))
    ∧ (credentialControlVisible st = false → identityAffordanceVisible st = false →
        check_if_logged_in st = false) := by
  unfold check_if_logged_in credentialControlVisible identityAffordanceVisible
  by_cases h1 : anyVisible [st.emailById, st.emailByName, st.loginButton] = true
  · simp [h1]
  · by_cases h2 : anyVisible [st.profileLabel, st.accountLabel, st.meLink] = true <;>
      simp [h1, h2]

/-- Witness for C3: credential control and identity affordance both visible
still yields `false`. -/
theorem check_if_logged_in_spec_witness :
    check_if_logged_in ⟨.visible, .absent, .absent, .visible, .absent, .absent⟩ = false :=
  (check_if_logged_in_spec _).1 (by decide)

/-- Claim C4: `detect_rate_limit` reports `true` exactly when the body text
contains some vocabulary phrase in some letter-case variant; a hit sets the
sticky flag and increments the counter, a miss leaves the state untouched.
Totality of the function is the non-aborting behaviour: it only ever
reports to its caller. -/
theorem detect_rate_limit_spec (bodyText : List Char) (st : RateLimitState) :
    ((detect_rate_limit bodyText st).1 = true ↔
      ∃ p ∈ rate_limit_phrases, ∃ v, v <:+: bodyText ∧ v.map lowerChar = p)
    ∧ ((detect_rate_limit bodyText st).1 = true →
        (detect_rate_limit bodyText st).2.rate_limited = true ∧
        (detect_rate_limit bodyText st).2.rate_limit_hits = st.rate_limit_hits + 1)
    ∧ ((detect_rate_limit bodyText st).1 = false →
        (detect_rate_limit bodyText st).2 = st) := by
  by_cases h : rate_limit_phrases.any (fun p => containsSub p (bodyText.map lowerChar)) = true
  · have hr : detect_rate_limit bodyText st
        = (true, ⟨true, st.rate_limit_hits + 1⟩) := by
      simp [detect_rate_limit, h]
    rw [hr]
    exact ⟨⟨fun _ => (any_phrase_iff bodyText).mp h, fun _ => rfl⟩,
      fun _ => ⟨rfl, rfl⟩, fun hfalse => by simp at hfalse⟩
  · have hr : detect_rate_limit bodyText st = (false, st) := by
      simp [detect_rate_limit, h]
    rw [hr]
    refine ⟨⟨fun hfalse => by simp at hfalse, fun hex => ?_⟩,
      fun htrue => by simp at htrue, fun _ => rfl⟩
    exact absurd ((any_phrase_iff bodyText).mpr hex) h

/-- Witness for C4: an upper-case variant of "try again later" is flagged and
counted. -/
theorem detect_rate_limit_spec_witness :
    (detect_rate_limit (strL "Please TRY AGAIN Later!") ⟨false, 3⟩).1 = true
    ∧ (detect_rate_limit (strL "Please TRY AGAIN Later!") ⟨false, 3⟩).2.rate_limit_hits = 4 := by
  have h1 : (detect_rate_limit (strL "Please TRY AGAIN Later!") ⟨false, 3⟩).1 = true := by
    decide
  exact ⟨h1, ((detect_rate_limit_spec (strL "Please TRY AGAIN Later!") ⟨false, 3⟩).2.1 h1).2⟩

/-- Counterexample to C5: two different strategy lists, neither of which
matches anything, produce the IDENTICAL failure value — the fixed error
string of lines 784-789 — so the failure cannot carry the (full) strategy
list for diagnostics, and no `ElementNotFound` value exists in this code
path at all. -/
theorem pageNameResolution_failure_drops_strategies :
    pageNameResolution findNothing [0]
        = Sum.inr (strL "Could not find page name input field")
    ∧ pageNameResolution findNothing [0, 1, 2]
        = Sum.inr (strL "Could not find page name input field")
    ∧ ([0] : List Nat) ≠ [0, 1, 2] := by
  decide

/-- Claim C5 as amended: resolution returns the match of the earliest
strategy in declared order (strategies before it contributing no
displayed-and-enabled element), and when no strategy yields a match the
step returns a failed result carrying only the fixed error string
`"Could not find page name input field"` — not the strategy list. -/
theorem pageNameResolution_first_match {α : Type} (find : α → FindOutcome) :
    (∀ (pre : List α) (s : α) (post : List α) (e : DomElement),
        (∀ s2 ∈ pre, strategyMatch find s2 = none) →
        strategyMatch find s = some e →
        pageNameResolution find (pre ++ s :: post) = Sum.inl e)
    ∧ (∀ l : List α, (∀ s ∈ l, strategyMatch find s = none) →
        pageNameResolution find l
          = Sum.inr (strL "Could not find page name input field")) := by
  constructor
  · intro pre s post e hpre hs
    unfold pageNameResolution
    have hres : resolveFirst find (pre ++ s :: post) = some e := by
      induction pre with
      | nil => simp [resolveFirst, hs]
      | cons a rest ih =>
        have ha := hpre a (by simp)
        simp only [List.cons_append, resolveFirst, ha]
        exact ih fun x hx => hpre x (by simp [hx])
    rw [hres]
  · intro l hl
    unfold pageNameResolution
    have hres : resolveFirst find l = none := by
      induction l with
      | nil => rfl
      | cons a rest ih =>
        have ha := hl a (by simp)
        simp only [resolveFirst, ha]
        exact ih fun x hx => hl x (by simp [hx])
    rw [hres]

/-- Witness for C5 (amended): strategy 0 yields only a hidden element, so
strategy 1's displayed, enabled element is returned. -/
theorem pageNameResolution_first_match_witness :
    pageNameResolution findDemo [0, 1, 2] = Sum.inl ⟨true, true, 7⟩ :=
  (pageNameResolution_first_match findDemo).1 [0] 1 [2] ⟨true, true, 7⟩
    (by decide) (by decide)

/-- Counterexample to C6: on `https://www.facebook.com/12345?vid=abc` the
first-matching-rule reading gives "12345" (no numeric `id=` parameter
exists, the numeric-path-segment rule matches "12345", and even the
trailing-segment rule gives "12345"), but the code returns the empty
identifier: the `elif "id=" in current_url` gate fires on the substring
`id=` inside `vid=abc`, its regex captures nothing, and later rules are
never consulted. -/
theorem extract_page_id_not_rule_priority :
    extract_page_id (strL "https://www.facebook.com/12345?vid=abc") = []
    ∧ searchPatDigits (strL "id=") (strL "https://www.facebook.com/12345?vid=abc") = none
    ∧ searchPatDigits (strL "facebook.com/") (strL "https://www.facebook.com/12345?vid=abc")
        = some (strL "12345")
    ∧ trailingSegment (strL "https://www.facebook.com/12345?vid=abc") = strL "12345"
    ∧ ([] : List Char) ≠ strL "12345" := by
  decide

/-- Claim C6 as amended: the identifier is determined by the first rule in
priority order whose GATE holds, where the gates are substring presence of
`profile.php?id=`, then substring presence of `id=` (anywhere, including
inside longer parameter names), then a successful `facebook.com/<digits>`
search, then a catch-all; the fired rule's numeric capture (empty when its
regex fails — later rules are then NOT consulted) or trailing-segment text
is the result. -/
theorem extract_page_id_eq_gated_rules (url : List Char) :
    extract_page_id url = applyRules pageIdRules url := by
  unfold extract_page_id applyRules pageIdRules
  rfl

theorem loadCookiesLoop_all_ok (addOk : SanitizedCookie → Bool) (cs : List Cookie)
    (h : ∀ c ∈ cs, sanitizeCookie c ≠ none) (acc : List SanitizedCookie) :
    loadCookiesLoop addOk cs acc
      = (true, acc.reverse ++ ((cs.filterMap sanitizeCookie).filter addOk)) := by
  induction cs generalizing acc with
  | nil => simp [loadCookiesLoop]
  | cons c rest ih =>
    obtain ⟨sc, hsc⟩ : ∃ sc, sanitizeCookie c = some sc := by
      cases hc : sanitizeCookie c with
      | none => exact absurd hc (h c (by simp))
      | some sc => exact ⟨sc, rfl⟩
    have hrest : ∀ x ∈ rest, sanitizeCookie x ≠ none := fun x hx => h x (by simp [hx])
    by_cases hadd : addOk sc = true
    · simp [loadCookiesLoop, hsc, hadd, ih hrest, List.filterMap_cons,
        List.filter_cons]
    · simp [loadCookiesLoop, hsc, hadd, ih hrest, List.filterMap_cons,
        List.filter_cons]

theorem loadCookiesLoop_abort (addOk : SanitizedCookie → Bool)
    (pre post : List Cookie) (bad : Cookie) (hbad : sanitizeCookie bad = none)
    (h : ∀ c ∈ pre, sanitizeCookie c ≠ none) (acc : List SanitizedCookie) :
    loadCookiesLoop addOk (pre ++ bad :: post) acc
      = (false, acc.reverse ++ ((pre.filterMap sanitizeCookie).filter addOk)) := by
  induction pre generalizing acc with
  | nil => simp [loadCookiesLoop, hbad]
  | cons c rest ih =>
    obtain ⟨sc, hsc⟩ : ∃ sc, sanitizeCookie c = some sc := by
      cases hc : sanitizeCookie c with
      | none => exact absurd hc (h c (by simp))
      | some sc => exact ⟨sc, rfl⟩
    have hrest : ∀ x ∈ rest, sanitizeCookie x ≠ none := fun x hx => h x (by simp [hx])
    by_cases hadd : addOk sc = true
    · simp [loadCookiesLoop, hsc, hadd, ih hrest, List.filterMap_cons,
        List.filter_cons]
    · simp [loadCookiesLoop, hsc, hadd, ih hrest, List.filterMap_cons,
        List.filter_cons]

/-- Counterexample to C2: a file whose first cookie has a non-convertible
expiry makes `load_cookies` return `False` and prevents the remaining
(perfectly valid) cookie from being restored, because the
`int(cookie['expiry'])` coercion at line 154 sits OUTSIDE the per-cookie
`try` and its `ValueError` escapes to the method-level handler. -/
theorem load_cookies_aborts_on_bad_expiry :
    load_cookies (CookieFile.parsed [badExpiryCookie, goodCookie]) (fun _ => true)
      = (false, []) := by
  decide

/-- Claim C2 as amended: `load_cookies` returns `false` when the file is
absent or unparsable; failures of `add_cookie` itself are skipped
per-cookie; but a cookie whose expiry value `int()` cannot convert aborts
the whole load — it returns `false` and no cookie after it is restored
(only the convertible prefix, filtered by add success, is). -/
theorem load_cookies_spec (addOk : SanitizedCookie → Bool) :
    (load_cookies CookieFile.absent addOk = (false, []))
    ∧ (load_cookies CookieFile.unparsable addOk = (false, []))
    ∧ (∀ cs : List Cookie, (∀ c ∈ cs, sanitizeCookie c ≠ none) →
        load_cookies (CookieFile.parsed cs) addOk
          = (true, (cs.filterMap sanitizeCookie).filter addOk))
    ∧ (∀ (pre post : List Cookie) (bad : Cookie), sanitizeCookie bad = none →
        (∀ c ∈ pre, sanitizeCookie c ≠ none) →
        load_cookies (CookieFile.parsed (pre ++ bad :: post)) addOk
          = (false, (pre.filterMap sanitizeCookie).filter addOk)) := by
  refine ⟨rfl, rfl, ?_, ?_⟩
  · intro cs h
    have := loadCookiesLoop_all_ok addOk cs h []
    simpa [load_cookies] using this
  · intro pre post bad hbad h
    have := loadCookiesLoop_abort addOk pre post bad hbad h []
    simpa [load_cookies] using this

/-- Witness for C2 (amended): a file of one convertible cookie loads with
`True` and restores its sanitized form. -/
theorem load_cookies_spec_witness :
    load_cookies (CookieFile.parsed [goodCookie]) (fun _ => true)
      = (true, [⟨1, some 123⟩]) := by
  have h := (load_cookies_spec (fun _ => true)).2.2.1 [goodCookie] (by decide)
  rw [h]
  decide

theorem foldl_recordAttempt (outcomes : List Bool) (r : BatchResults) :
    (outcomes.foldl recordAttempt r).success = r.success + outcomes.count true
    ∧ (outcomes.foldl recordAttempt r).failed = r.failed + outcomes.count false := by
  induction outcomes generalizing r with
  | nil => simp
  | cons b rest ih =>
    have h := ih (recordAttempt r b)
    cases b <;>
      simp [List.count_cons, recordAttempt] at h ⊢ <;>
      omega

/-- Claim C7: over the attempts actually run, the recorded counters are the
numbers of successes and failures, the final batch status is `completed`
whenever at least one attempt succeeded, and it is `failed` exactly when no
attempt succeeded and at least one failed. -/
theorem create_pages_task_final_status (outcomes : List Bool) :
    (runBatchLoop outcomes).success = outcomes.count true
    ∧ (runBatchLoop outcomes).failed = outcomes.count false
    ∧ (1 ≤ outcomes.count true →
        finalBatchStatus (runBatchLoop outcomes) = strL "completed")
    ∧ (finalBatchStatus (runBatchLoop outcomes) = strL "failed" ↔
        (outcomes.count true = 0 ∧ 1 ≤ outcomes.count false)) := by
  have hc := foldl_recordAttempt outcomes ⟨0, 0, 0⟩
  have hs : (runBatchLoop outcomes).success = outcomes.count true := by
    simpa [runBatchLoop] using hc.1
  have hf : (runBatchLoop outcomes).failed = outcomes.count false := by
    simpa [runBatchLoop] using hc.2
  have hdiff : strL "failed" ≠ strL "completed" := by decide
  have hform : ∀ r : BatchResults, finalBatchStatus r
      = if r.success = 0 ∧ 0 < r.failed then strL "failed" else strL "completed" := by
    intro r
    unfold finalBatchStatus
    by_cases h1 : r.success = 0
    · by_cases h2 : 0 < r.failed
      · simp [h1, h2]
      · simp [h1, h2]
    · simp [h1]
  refine ⟨hs, hf, ?_, ?_⟩
  · intro h1
    rw [hform, if_neg]
    rw [hs]
    omega
  · rw [hform, hs, hf]
    by_cases h : outcomes.count true = 0 ∧ 0 < outcomes.count false
    · rw [if_pos h]
      exact ⟨fun _ => ⟨h.1, h.2⟩, fun _ => rfl⟩
    · rw [if_neg h]
      constructor
      · intro he
        exact absurd he.symm hdiff
      · intro hh
        exact absurd hh h

/-- Witness for C7: one success among two failures still ends `completed`. -/
theorem create_pages_task_final_status_witness :
    finalBatchStatus (runBatchLoop [true, false, false]) = strL "completed" :=
  (create_pages_task_final_status [true, false, false]).2.2.1 (by decide)

/-- Claim C8: `get_metrics` leaves the metrics untouched and its snapshot
carries the four raw counters plus the two claimed derived values, with 0
defaults when the respective denominator is 0. -/
theorem get_metrics_spec (m : Metrics) :
    (get_metrics m).2 = m
    ∧ (get_metrics m).1.pages_created = m.pages_created
    ∧ (get_metrics m).1.total_time = m.total_time
    ∧ (get_metrics m).1.errors = m.errors
    ∧ (get_metrics m).1.rate_limit_hits = m.rate_limit_hits
    ∧ (m.pages_created = 0 → (get_metrics m).1.avg_time_per_page = 0)
    ∧ (0 < m.pages_created →
        (get_metrics m).1.avg_time_per_page = m.total_time / (m.pages_created : Rat))
    ∧ (m.pages_created + m.errors = 0 → (get_metrics m).1.success_rate = 0)
    ∧ (0 < m.pages_created + m.errors →
        (get_metrics m).1.success_rate
          = (m.pages_created : Rat) / ((m.pages_created : Rat) + (m.errors : Rat)) * 100) := by
  refine ⟨rfl, rfl, rfl, rfl, rfl, ?_, ?_, ?_, ?_⟩
  · intro h
    show (if 0 < m.pages_created then m.total_time / (m.pages_created : Rat) else 0) = 0
    rw [if_neg]
    omega
  · intro h
    show (if 0 < m.pages_created then m.total_time / (m.pages_created : Rat) else 0)
      = m.total_time / (m.pages_created : Rat)
    rw [if_pos h]
  · intro h
    show (if 0 < m.pages_created + m.errors then
        ((m.pages_created : Rat) / ((m.pages_created + m.errors : Nat) : Rat)) * 100
      else 0) = 0
    rw [if_neg]
    omega
  · intro h
    show (if 0 < m.pages_created + m.errors then
        ((m.pages_created : Rat) / ((m.pages_created + m.errors : Nat) : Rat)) * 100
      else 0) = (m.pages_created : Rat) / ((m.pages_created : Rat) + (m.errors : Rat)) * 100
    rw [if_pos h]
    push_cast
    ring

/-- Witness for C8: two pages created in 10 units with two errors give an
average of 5 and a success rate of 50 percent. -/
theorem get_metrics_spec_witness :
    (get_metrics ⟨2, 10, 2, 1⟩).1.avg_time_per_page = 5
    ∧ (get_metrics ⟨2, 10, 2, 1⟩).1.success_rate = 50 := by
  have h := get_metrics_spec ⟨2, 10, 2, 1⟩
  have ha := h.2.2.2.2.2.2.1 (by norm_num)
  have hr := h.2.2.2.2.2.2.2.2 (by norm_num)
  rw [ha, hr]
  norm_num

/-- Claim C9: in real mode, once the logged-in precondition holds every
exception-free share attempt returns `success=True` — also when no stage
(including "Give Access") could act; `success=False` arises only from the
precondition or from a raised exception. -/
theorem real_share_to_profile_success_rule (page_id profile_url role : List Char) :
    (∀ steps : ShareSteps,
        (real_share_to_profile true page_id profile_url role (ShareEnv.runs steps)).success
          = true)
    ∧ (real_share_to_profile true page_id profile_url role
        (ShareEnv.runs ⟨false, false, false, false, false, false,
          false, false, false, false, false⟩)).success = true
    ∧ (∀ env : ShareEnv,
        (real_share_to_profile false page_id profile_url role env).success = false)
    ∧ ((real_share_to_profile true page_id profile_url role
        ShareEnv.raisesTimeout).success = false)
    ∧ (∀ msg : List Char,
        (real_share_to_profile true page_id profile_url role
          (ShareEnv.raisesOther msg)).success = false) := by
  refine ⟨?_, rfl, fun env => rfl, rfl, fun msg => rfl⟩
  intro steps
  cases hsc : steps.submitClicked <;>
    simp [real_share_to_profile, hsc]

/-- Claim C10: an attempt rejected at a precondition (driver absent, or real
mode while not logged in) returns a failed result and leaves the metrics
untouched, and conversely any change to the counters can only come from an
attempt that entered one of the two creation workflows. -/
theorem create_facebook_page_precondition_metrics
    (driverPresent test_mode logged_in : Bool) (page_name : List Char)
    (env : CreateEnv) (m : Metrics) :
    (driverPresent = false →
      (create_facebook_page driverPresent test_mode logged_in page_name env m).2 = m
      ∧ (create_facebook_page driverPresent test_mode logged_in page_name env m).1.success
          = false)
    ∧ (driverPresent = true → test_mode = false → logged_in = false →
      (create_facebook_page driverPresent test_mode logged_in page_name env m).2 = m
      ∧ (create_facebook_page driverPresent test_mode logged_in page_name env m).1.success
          = false)
    ∧ ((create_facebook_page driverPresent test_mode logged_in page_name env m).2.pages_created
          + (create_facebook_page driverPresent test_mode logged_in page_name env m).2.errors
        ≠ m.pages_created + m.errors →
      driverPresent = true ∧ (test_mode = true ∨ logged_in = true)) := by
  refine ⟨?_, ?_, ?_⟩
  · intro h
    subst h
    exact ⟨rfl, rfl⟩
  · intro h1 h2 h3
    subst h1
    subst h2
    subst h3
    exact ⟨rfl, rfl⟩
  · intro hne
    cases hdp : driverPresent
    · exfalso
      apply hne
      subst hdp
      rfl
    · refine ⟨rfl, ?_⟩
      cases htm : test_mode
      · cases hli : logged_in
        · exfalso
          apply hne
          subst hdp
          subst htm
          subst hli
          rfl
        · exact Or.inr rfl
      · exact Or.inl rfl

/-- Witness for C10: with no driver the metrics come back unchanged. -/
theorem create_facebook_page_precondition_metrics_witness :
    (create_facebook_page false true true (strL "P")
        ⟨TestEnv.runs (strL "abc") 1, RealEnv.raisesTimeout 1⟩ ⟨0, 0, 0, 0⟩).2
      = ⟨0, 0, 0, 0⟩ :=
  ((create_facebook_page_precondition_metrics false true true (strL "P")
      ⟨TestEnv.runs (strL "abc") 1, RealEnv.raisesTimeout 1⟩ ⟨0, 0, 0, 0⟩).1 rfl).1

/-- Claim C1 (code bug): a real-mode attempt that is logged in, resolves the
page-name input and clicks Create, but whose first confirmation poll sees
neither the dashboard indicator nor a page-id URL, ends with
`success=False` and the error string of the `NameError` on the undefined
`creation_urls` (line 1014) — not the `"Page creation not confirmed - did
not redirect to page"` reason of the dead code at line 1084, and not the
not-clicked reason either; the errors counter is bumped by the generic
handler. -/
theorem create_real_page_nameError_on_unconfirmed :
    create_real_facebook_page true (strL "My Page")
        (RealEnv.runs ⟨true, true, false,
          strL "https://www.facebook.com/pages/creation/", 5⟩)
        ⟨0, 0, 0, 0⟩
      = (⟨false, strL "My Page", [], [], 5, creationUrlsNameError⟩, ⟨0, 0, 1, 0⟩)
    ∧ creationUrlsNameError
        ≠ strL "Page creation not confirmed - did not redirect to page"
    ∧ creationUrlsNameError ≠ strL "Could not click Create Page button" := by
  decide
